import Mathlib

/- Verification development for the HyPyP inter-brain connectivity module
(`hypyp/analyses.py`).  The Python module is shallowly embedded: tensors are
total functions over natural-number indices together with explicit dimension
fields, complex samples are Mathlib complex numbers, fallible paths return
`Except`.  External numerical collaborators (multitaper transform, band-pass
filter, Hilbert transform, astropy circular correlation) are out of scope of
the repository and are modelled as opaque-at-the-logic-level parameters
gathered in an `Externals` record, with only their shape contracts used.
Floating point is modelled by real numbers; since the real-number model has no
NaN, NaN-skipping means coincide with plain means. -/

open Complex
open scoped BigOperators

/-- Error conditions of the module.  `inputMismatch` models the
`assert data[0].shape[0] == data[1].shape[0]` failures, `unsupportedMetric`
models the `NameError` raised for an unrecognized metric string (it carries
the offending string, matching the message
`Sychrony metric <mode> not supported.`), `shapeMismatch` models the
post-condition assert of `compute_freq_bands`, and `nameError` models a Python
undefined-variable (`NameError` or `UnboundLocalError`) at use of an unbound
local, carrying the variable name. -/
inductive SyncError where
  | inputMismatch
  | unsupportedMetric (mode : String)
  | shapeMismatch
  | nameError (varName : String)
  deriving DecidableEq, Repr

/-- The analytic signal tensor of `compute_sync`: shape
`(2, n_epochs, n_channels, n_frequencies, n_times)`.  `val subject epoch
channel freq time` is the complex sample; indices outside the tracked
dimensions carry junk values. -/
structure CSig where
  nEpoch : ℕ
  nCh : ℕ
  nFreq : ℕ
  nSamp : ℕ
  val : ℕ → ℕ → ℕ → ℕ → ℕ → ℂ

/-- A synchrony result: either the 4-D tensor
`(n_freq, n_epochs, n_channels, n_channels)` or the 3-D tensor
`(n_freq, n_channels, n_channels)`. -/
inductive SyncResult where
  | four (nFreq nEpoch nCh : ℕ) (val : ℕ → ℕ → ℕ → ℕ → ℝ)
  | three (nFreq nCh : ℕ) (val : ℕ → ℕ → ℕ → ℝ)

/-- Shape of a synchrony result, as the list of axis lengths. -/
def shapeOf : SyncResult → List ℕ
  | .four nf ne nc _ => [nf, ne, nc, nc]
  | .three nf nc _ => [nf, nc, nc]

/-- Raw dual-subject data: the two real tensors `data[0]`, `data[1]`, each
shaped `(n_epochs, n_channels, n_times)`.  Epoch counts are tracked separately
per subject because the code validates their equality. -/
structure DualData where
  nEpochA : ℕ
  nEpochB : ℕ
  nCh : ℕ
  nSamp : ℕ
  sub0 : ℕ → ℕ → ℕ → ℝ
  sub1 : ℕ → ℕ → ℕ → ℝ

/-- External numerical collaborators (out of scope of the repository, §6 of
the spec): multitaper time-frequency transform, band-pass filter, Hilbert
transform (acting along the time axis of one channel row), and the astropy
circular correlation primitive on two phase sequences of a given length. -/
structure Externals where
  multitaper : ℕ → List ℤ → (ℕ → ℕ → ℕ → ℝ) → (ℕ → ℕ → ℕ → ℕ → ℂ)
  filterData : ℕ → ℝ → ℝ → (ℕ → ℝ) → (ℕ → ℝ)
  hilbert : (ℕ → ℝ) → (ℕ → ℂ)
  circcorrcoef : ℕ → (ℕ → ℝ) → (ℕ → ℝ) → ℝ

/-- Frequency specification given to `simple_corr`: a Python list (two-element
integer range), a dict of named bands (modelled as an association list, whose
order is the dict's iteration order), or any other Python value (tuple, numpy
array, None, ...). -/
inductive FreqSpec where
  | list (f0 f1 : ℤ)
  | dict (bands : List (String × ℝ × ℝ))
  | other

/-- Mean of the first `n` values of a real sequence (`np.nanmean` on a
NaN-free vector). -/
noncomputable def meanR (n : ℕ) (f : ℕ → ℝ) : ℝ :=
  (∑ t in Finset.range n, f t) / (n : ℝ)

/-- Population standard deviation (`np.nanstd`, ddof = 0) of the first `n`
values. -/
noncomputable def stdR (n : ℕ) (f : ℕ → ℝ) : ℝ :=
  Real.sqrt (meanR n (fun t => (f t - meanR n f) ^ 2))

/-- Pearson correlation coefficient of two length-`n` real sequences
(`_corrcoef`, i.e. `np.corrcoef([X, Y])[0][1]`; the covariance normalization
cancels). -/
noncomputable def _corrcoef (n : ℕ) (X Y : ℕ → ℝ) : ℝ :=
  let mX := (∑ t in Finset.range n, X t) / (n : ℝ)
  let mY := (∑ t in Finset.range n, Y t) / (n : ℝ)
  (∑ t in Finset.range n, (X t - mX) * (Y t - mY)) /
    Real.sqrt ((∑ t in Finset.range n, (X t - mX) ^ 2) *
      (∑ t in Finset.range n, (Y t - mY) ^ 2))

/-- Phase locking value as implemented:
`np.abs(np.sum(np.exp(1j * (X - Y)))) / len(X)`.  Note the arguments the
caller passes are unit-magnitude complex values, not phase angles. -/
noncomputable def _plv (n : ℕ) (X Y : ℕ → ℂ) : ℝ :=
  Complex.abs (∑ t in Finset.range n, Complex.exp (Complex.I * (X t - Y t))) / (n : ℝ)

/-- Coherence as implemented (`_coh`): `X_phase`/`Y_phase` are the
unit-magnitude complex values `X/np.abs(X)`, `Sxy` multiplies the amplitudes
by `np.exp(1j * (X_phase - Y_phase))`, and the time course of
`np.abs(Sxy / np.sqrt(Sxx * Syy))` is averaged (`np.nanmean`; plain mean in
the NaN-free real model). -/
noncomputable def _coh (n : ℕ) (X Y : ℕ → ℂ) : ℝ :=
  let Xp := fun t => X t / ((Complex.abs (X t) : ℝ) : ℂ)
  let Yp := fun t => Y t / ((Complex.abs (Y t) : ℝ) : ℂ)
  let Sxy := fun t =>
    ((Complex.abs (X t) * Complex.abs (Y t) : ℝ) : ℂ) * Complex.exp (Complex.I * (Xp t - Yp t))
  let coh := fun t =>
    Complex.abs (Sxy t / ((Real.sqrt (Complex.abs (X t) ^ 2 * Complex.abs (Y t) ^ 2) : ℝ) : ℂ))
  (∑ t in Finset.range n, coh t) / (n : ℝ)

/-- Imaginary coherence as implemented (`_icoh`), with the same
unit-complex-instead-of-angle convention and `np.sin` applied to the complex
difference. -/
noncomputable def _icoh (n : ℕ) (X Y : ℕ → ℂ) : ℝ :=
  let Xp := fun t => X t / ((Complex.abs (X t) : ℝ) : ℂ)
  let Yp := fun t => Y t / ((Complex.abs (Y t) : ℝ) : ℂ)
  let iSxy := fun t =>
    ((Complex.abs (X t) * Complex.abs (Y t) : ℝ) : ℂ) * Complex.sin (Xp t - Yp t)
  let icoh := fun t =>
    Complex.abs (iSxy t / ((Real.sqrt (Complex.abs (X t) ^ 2 * Complex.abs (Y t) ^ 2) : ℝ) : ℂ))
  (∑ t in Finset.range n, icoh t) / (n : ℝ)

/-- Projected power correlation as implemented (`_proj_power_corr`), with
`np.nanmean`/`np.nanstd` rendered as plain mean and population standard
deviation in the NaN-free real model. -/
noncomputable def _proj_power_corr (n : ℕ) (X Y : ℕ → ℂ) : ℝ :=
  let X_abs := fun t => Complex.abs (X t)
  let Y_abs := fun t => Complex.abs (Y t)
  let X_unit := fun t => X t / ((X_abs t : ℝ) : ℂ)
  let Y_unit := fun t => Y t / ((Y_abs t : ℝ) : ℂ)
  let X_abs_norm := fun t => (X_abs t - meanR n X_abs) / stdR n X_abs
  let Y_abs_norm := fun t => (Y_abs t - meanR n Y_abs) / stdR n Y_abs
  let X_s := fun t => X_abs t / stdR n X_abs
  let Y_s := fun t => Y_abs t / stdR n Y_abs
  let X_z := fun t => ((X_s t : ℝ) : ℂ) * X_unit t
  let Y_z := fun t => ((Y_s t : ℝ) : ℂ) * Y_unit t
  let projX := fun t => (X_z t * (starRingEnd ℂ) (Y_unit t)).im
  let projY := fun t => (Y_z t * (starRingEnd ℂ) (X_unit t)).im
  let projX_norm := fun t => (projX t - meanR n projX) / stdR n projX
  let projY_norm := fun t => (projY t - meanR n projY) / stdR n projY
  (meanR n (fun t => projX_norm t * Y_abs_norm t) +
    meanR n (fun t => projY_norm t * X_abs_norm t)) / 2

/-- Assembly of the 4-D per-epoch result.  It mirrors the nested list
comprehension of `compute_sync`: the innermost comprehension ranges over
`ch_i` (the subject-0 channel, passed as first metric argument) and the next
one over `ch_j` (the subject-1 channel), so axis 2 of the result indexes
`ch_j` and axis 3 indexes `ch_i`.  The elementwise pre-transform commutes with
slicing, so each branch's pre-transform is applied inside `pair`. -/
def assemble4 (s : CSig) (pair : (ℕ → ℂ) → (ℕ → ℂ) → ℝ) : SyncResult :=
  SyncResult.four s.nFreq s.nEpoch s.nCh
    (fun f e p q => pair (fun t => s.val 0 e q f t) (fun t => s.val 1 e p f t))

/-- Concatenation of all epochs of one `(subject, channel, frequency)` row
along the time axis (`np.concatenate(values[n], axis=2)`): sample `t` of the
strand is sample `t % nSamp` of epoch `t / nSamp`. -/
def concatSlice (s : CSig) (subj ch f : ℕ) : ℕ → ℂ :=
  fun t => s.val subj (t / s.nSamp) ch f (t % s.nSamp)

/-- Assembly of the 3-D concatenated-epochs result, mirroring the nested list
comprehension of the `else` branch of `compute_sync` (axis 1 indexes `ch_j`,
the subject-1 channel; axis 2 indexes `ch_i`, the subject-0 channel). -/
def assemble3 (s : CSig) (pair : (ℕ → ℂ) → (ℕ → ℂ) → ℝ) : SyncResult :=
  SyncResult.three s.nFreq s.nCh
    (fun f p q => pair (concatSlice s 0 q f) (concatSlice s 1 p f))

/-- The `np.nanmean(result, axis=1)` reduction applied when `time_resolved`
is set: the 4-D tensor is averaged over its epoch axis.  (In the code this is
only ever applied to the 4-D per-epoch result.) -/
noncomputable def nanmeanAxis1 : SyncResult → SyncResult
  | .four nf ne nc v =>
      .three nf nc (fun f p q => (∑ e in Finset.range ne, v f e p q) / (ne : ℝ))
  | .three nf nc v => .three nf nc v

/-- The embedding of `compute_sync`: dispatch on `mode` (the string-identity
comparisons `mode is <literal>` of the source are modelled as string equality,
which is their behavior on interned literals), assemble the per-epoch 4-D
tensor or the concatenated-epochs 3-D tensor, and in the per-epoch branch
apply the epoch-axis `np.nanmean` when `time_resolved` is set.  An
unrecognized metric string raises `NameError` (modelled
`SyncError.unsupportedMetric`) in either branch. -/
noncomputable def computeSync (ext : Externals) (s : CSig) (mode : String)
    (epoch_wise time_resolved : Bool) : Except SyncError SyncResult :=
  if epoch_wise then
    (if mode = "envelope" then
      Except.ok (assemble4 s (fun X Y =>
        _corrcoef s.nSamp (fun t => Complex.abs (X t)) (fun t => Complex.abs (Y t))))
    else if mode = "power" then
      Except.ok (assemble4 s (fun X Y =>
        _corrcoef s.nSamp (fun t => Complex.abs (X t) ^ 2) (fun t => Complex.abs (Y t) ^ 2)))
    else if mode = "plv" then
      Except.ok (assemble4 s (fun X Y =>
        _plv s.nSamp (fun t => X t / ((Complex.abs (X t) : ℝ) : ℂ))
          (fun t => Y t / ((Complex.abs (Y t) : ℝ) : ℂ))))
    else if mode = "ccorr" then
      Except.ok (assemble4 s (fun X Y =>
        ext.circcorrcoef s.nSamp (fun t => Complex.arg (X t)) (fun t => Complex.arg (Y t))))
    else if mode = "proj" then
      Except.ok (assemble4 s (fun X Y => _proj_power_corr s.nSamp X Y))
    else if mode = "imagcoh" then
      Except.ok (assemble4 s (fun X Y => _icoh s.nSamp X Y))
    else if mode = "coh" then
      Except.ok (assemble4 s (fun X Y => _coh s.nSamp X Y))
    else Except.error (SyncError.unsupportedMetric mode)).map
      (fun r => if time_resolved then nanmeanAxis1 r else r)
  else
    if mode = "envelope" then
      Except.ok (assemble3 s (fun X Y =>
        _corrcoef (s.nEpoch * s.nSamp) (fun t => Complex.abs (X t)) (fun t => Complex.abs (Y t))))
    else if mode = "power" then
      Except.ok (assemble3 s (fun X Y =>
        _corrcoef (s.nEpoch * s.nSamp) (fun t => Complex.abs (X t) ^ 2)
          (fun t => Complex.abs (Y t) ^ 2)))
    else if mode = "plv" then
      Except.ok (assemble3 s (fun X Y =>
        _plv (s.nEpoch * s.nSamp) (fun t => X t / ((Complex.abs (X t) : ℝ) : ℂ))
          (fun t => Y t / ((Complex.abs (Y t) : ℝ) : ℂ))))
    else if mode = "ccorr" then
      Except.ok (assemble3 s (fun X Y =>
        ext.circcorrcoef (s.nEpoch * s.nSamp) (fun t => Complex.arg (X t))
          (fun t => Complex.arg (Y t))))
    else if mode = "proj" then
      Except.ok (assemble3 s (fun X Y => _proj_power_corr (s.nEpoch * s.nSamp) X Y))
    else if mode = "imagcoh" then
      Except.ok (assemble3 s (fun X Y => _icoh (s.nEpoch * s.nSamp) X Y))
    else if mode = "coh" then
      Except.ok (assemble3 s (fun X Y => _coh (s.nEpoch * s.nSamp) X Y))
    else Except.error (SyncError.unsupportedMetric mode)

/-- The list `np.arange(f0, f1, 1)` of integer frequencies. -/
def arange (f0 f1 : ℤ) : List ℤ :=
  (List.range (f1 - f0).toNat).map (fun k : ℕ => f0 + (k : ℤ))

/-- The embedding of `compute_single_freq`: both subjects go through the
external multitaper primitive (sampling frequency `n_samp`, frequency list
`np.arange(f0, f1, 1)`), whose contract yields a complex tensor shaped
`(epochs, channels, frequencies, samples)`; the two outputs are stacked on a
new leading subject axis. -/
def compute_single_freq (ext : Externals) (d : DualData) (f0 f1 : ℤ) : CSig :=
  { nEpoch := d.nEpochA
    nCh := d.nCh
    nFreq := (arange f0 f1).length
    nSamp := d.nSamp
    val := fun subj e c f t =>
      ext.multitaper d.nSamp (arange f0 f1) (if subj = 0 then d.sub0 else d.sub1) e c f t }

/-- The embedding of `compute_freq_bands`: after the epoch-count assert, each
band of the dict (in iteration order) band-pass filters each subject's data
and applies the Hilbert transform along the time axis; the per-band results
are stacked so that the band axis is axis 3 of the assembled
`(2, epochs, channels, bands, samples)` tensor.  The post-condition shape
assert holds by construction in this typed model. -/
def compute_freq_bands (ext : Externals) (d : DualData)
    (freq_bands : List (String × ℝ × ℝ)) : Except SyncError CSig :=
  if d.nEpochA = d.nEpochB then
    Except.ok
      { nEpoch := d.nEpochA
        nCh := d.nCh
        nFreq := freq_bands.length
        nSamp := d.nSamp
        val := fun subj e c fb t =>
          ext.hilbert
            (ext.filterData d.nSamp (freq_bands.getD fb ("", 0, 0)).2.1
              (freq_bands.getD fb ("", 0, 0)).2.2
              (fun u => (if subj = 0 then d.sub0 else d.sub1) e c u)) t }
  else Except.error SyncError.inputMismatch

/-- The embedding of the facade `simple_corr`: assert equal epoch counts,
dispatch on the type of `frequencies` (list, dict, or anything else), and
forward the analytic signal to `compute_sync`.  When `frequencies` is neither
a list nor a dict, the local `values` is never assigned and its use raises a
Python undefined-variable error, modelled by `SyncError.nameError "values"`. -/
noncomputable def simple_corr (ext : Externals) (d : DualData) (frequencies : FreqSpec)
    (mode : String) (epoch_wise time_resolved : Bool) : Except SyncError SyncResult :=
  if d.nEpochA = d.nEpochB then
    match frequencies with
    | .list f0 f1 => computeSync ext (compute_single_freq ext d f0 f1) mode epoch_wise time_resolved
    | .dict bands =>
        match compute_freq_bands ext d bands with
        | .ok sig => computeSync ext sig mode epoch_wise time_resolved
        | .error e => Except.error e
    | .other => Except.error (SyncError.nameError "values")
  else Except.error SyncError.inputMismatch

/-- The set of metric strings accepted by the dispatch of `compute_sync`. -/
def supportedModes : List String :=
  ["envelope", "power", "plv", "ccorr", "proj", "imagcoh", "coh"]

/-- A metric string is supported when it is one of the seven dispatch cases. -/
def Supported (mode : String) : Prop := mode ∈ supportedModes

instance : DecidablePred Supported := fun mode =>
  inferInstanceAs (Decidable (mode ∈ supportedModes))

/-- Whether an `Except` value is a success. -/
def exceptOk : Except SyncError SyncResult → Bool
  | .ok _ => true
  | .error _ => false

/-- Pre-transform plus metric of each supported mode, as a function of two
1-D complex slices of the given length (`0` for unsupported strings).  Used to
state the per-entry laws of the assembled results. -/
noncomputable def modePairFn (ext : Externals) (n : ℕ) (mode : String) :
    (ℕ → ℂ) → (ℕ → ℂ) → ℝ :=
  if mode = "envelope" then fun X Y =>
    _corrcoef n (fun t => Complex.abs (X t)) (fun t => Complex.abs (Y t))
  else if mode = "power" then fun X Y =>
    _corrcoef n (fun t => Complex.abs (X t) ^ 2) (fun t => Complex.abs (Y t) ^ 2)
  else if mode = "plv" then fun X Y =>
    _plv n (fun t => X t / ((Complex.abs (X t) : ℝ) : ℂ))
      (fun t => Y t / ((Complex.abs (Y t) : ℝ) : ℂ))
  else if mode = "ccorr" then fun X Y =>
    ext.circcorrcoef n (fun t => Complex.arg (X t)) (fun t => Complex.arg (Y t))
  else if mode = "proj" then fun X Y => _proj_power_corr n X Y
  else if mode = "imagcoh" then fun X Y => _icoh n X Y
  else if mode = "coh" then fun X Y => _coh n X Y
  else fun _ _ => 0

/-- Entry of a 4-D result (junk on a 3-D result). -/
def entry4 : SyncResult → ℕ → ℕ → ℕ → ℕ → ℝ
  | .four _ _ _ v, f, e, p, q => v f e p q
  | .three _ _ _, _, _, _, _ => 0

/-- Entry of a 3-D result (junk on a 4-D result). -/
def entry3 : SyncResult → ℕ → ℕ → ℕ → ℝ
  | .three _ _ v, f, p, q => v f p q
  | .four _ _ _ _, _, _, _ => 0

/-- Entry of a 4-D result inside `Except` (junk on errors). -/
def resultEntry4 : Except SyncError SyncResult → ℕ → ℕ → ℕ → ℕ → ℝ
  | .ok r, f, e, p, q => entry4 r f e p q
  | .error _, _, _, _, _ => 0

/-- Entry of a 3-D result inside `Except` (junk on errors). -/
def resultEntry3 : Except SyncError SyncResult → ℕ → ℕ → ℕ → ℝ
  | .ok r, f, p, q => entry3 r f p q
  | .error _, _, _, _ => 0

/-- Expected output shape of the engine (spec §3): 4-D exactly when
`per_epoch` is true and `time_resolved` is false. -/
def syncShape (nf ne nc : ℕ) (ew tr : Bool) : List ℕ :=
  if ew = true ∧ tr = false then [nf, ne, nc, nc] else [nf, nc, nc]

/-- Follows the spec's words for the plv row of the metric table: the mean
resultant length of the elementwise phase difference, the phases being the
instantaneous phase angles of the two sequences. -/
noncomputable def plvSpec (n : ℕ) (X Y : ℕ → ℂ) : ℝ :=
  Complex.abs (∑ t in Finset.range n,
    Complex.exp (Complex.I * (((Complex.arg (X t) : ℝ) : ℂ) - ((Complex.arg (Y t) : ℝ) : ℂ)))) /
    (n : ℝ)

/-- Follows the spec's words for the coh row of the metric table: the mean
over time of the instantaneous coherence with the complex exponential of the
phase-angle difference. -/
noncomputable def cohSpec (n : ℕ) (X Y : ℕ → ℂ) : ℝ :=
  (∑ t in Finset.range n,
    Complex.abs (((Complex.abs (X t) * Complex.abs (Y t) : ℝ) : ℂ) *
      Complex.exp (Complex.I *
        (((Complex.arg (X t) : ℝ) : ℂ) - ((Complex.arg (Y t) : ℝ) : ℂ)))) /
      Real.sqrt (Complex.abs (X t) ^ 2 * Complex.abs (Y t) ^ 2)) / (n : ℝ)

/-- Enumeration of the supported metric strings. -/
lemma supported_cases (mode : String) (hm : Supported mode) :
    mode = "envelope" ∨ mode = "power" ∨ mode = "plv" ∨ mode = "ccorr" ∨
    mode = "proj" ∨ mode = "imagcoh" ∨ mode = "coh" := by
  simpa [Supported, supportedModes] using hm

/-- C3: raising `UnsupportedMetric` is equivalent, in both branches, to the
metric string lying outside the supported set; supported strings always
produce a successful result.  The condition carries the offending string. -/
theorem c3_unsupported_metric_iff (ext : Externals) (s : CSig) (mode : String)
    (epoch_wise time_resolved : Bool) :
    (computeSync ext s mode epoch_wise time_resolved =
        Except.error (SyncError.unsupportedMetric mode) ↔ ¬ Supported mode) ∧
    (exceptOk (computeSync ext s mode epoch_wise time_resolved) = true ↔ Supported mode) := by
  by_cases hm : Supported mode
  · rcases supported_cases mode hm with h|h|h|h|h|h|h <;> subst h <;>
      cases epoch_wise <;> cases time_resolved <;>
      simp [computeSync, Except.map, exceptOk, hm]
  · have h := hm
    simp only [Supported, supportedModes, List.mem_cons, List.not_mem_nil, or_false] at h
    push_neg at h
    obtain ⟨h1, h2, h3, h4, h5, h6, h7⟩ := h
    cases epoch_wise <;> cases time_resolved <;>
      simp [computeSync, Except.map, exceptOk, h1, h2, h3, h4, h5, h6, h7, hm]

/-- A supported metric always yields a successful engine result. -/
lemma computeSync_ok_of_supported (ext : Externals) (s : CSig) (mode : String)
    (ew tr : Bool) (hm : Supported mode) :
    ∃ r, computeSync ext s mode ew tr = Except.ok r := by
  rcases supported_cases mode hm with h|h|h|h|h|h|h <;> subst h <;>
    cases ew <;> cases tr <;> exact ⟨_, rfl⟩

/-- An unsupported metric always yields the unsupported-metric error. -/
lemma computeSync_error_of_not_supported (ext : Externals) (s : CSig) (mode : String)
    (ew tr : Bool) (hm : ¬ Supported mode) :
    computeSync ext s mode ew tr = Except.error (SyncError.unsupportedMetric mode) := by
  have h := hm
  simp only [Supported, supportedModes, List.mem_cons, List.not_mem_nil, or_false] at h
  push_neg at h
  obtain ⟨h1, h2, h3, h4, h5, h6, h7⟩ := h
  cases ew <;> simp [computeSync, Except.map, h1, h2, h3, h4, h5, h6, h7]

/-- The engine itself never raises the input-mismatch condition. -/
lemma computeSync_ne_inputMismatch (ext : Externals) (s : CSig) (mode : String)
    (ew tr : Bool) :
    computeSync ext s mode ew tr ≠ Except.error SyncError.inputMismatch := by
  by_cases hm : Supported mode
  · obtain ⟨r, hr⟩ := computeSync_ok_of_supported ext s mode ew tr hm
    rw [hr]
    simp
  · rw [computeSync_error_of_not_supported ext s mode ew tr hm]
    simp

/-- C7: the facade fails with `InputMismatch` exactly when the two subject
streams disagree in epoch count; the check precedes any call to the external
analytic-signal primitives, and with equal epoch counts no `InputMismatch` is
ever raised. -/
theorem c7_input_mismatch_iff (ext : Externals) (d : DualData) (frequencies : FreqSpec)
    (mode : String) (epoch_wise time_resolved : Bool) :
    (simple_corr ext d frequencies mode epoch_wise time_resolved =
        Except.error SyncError.inputMismatch) ↔ d.nEpochA ≠ d.nEpochB := by
  by_cases hE : d.nEpochA = d.nEpochB
  · simp only [hE, ne_eq, not_true_eq_false, iff_false]
    cases frequencies with
    | list f0 f1 =>
        simpa [simple_corr, hE] using
          computeSync_ne_inputMismatch ext (compute_single_freq ext d f0 f1) mode
            epoch_wise time_resolved
    | dict bands =>
        simp only [simple_corr, compute_freq_bands, hE, if_true, ite_self, if_pos]
        exact computeSync_ne_inputMismatch ext _ mode epoch_wise time_resolved
    | other => simp [simple_corr, hE]
  · simp [simple_corr, hE]

/-- C9: for a supported metric, the per-epoch call with `time_resolved` set
returns exactly the epoch-axis mean of the 4-D tensor produced by the same
call without `time_resolved`. -/
theorem c9_time_resolved_epoch_mean (ext : Externals) (s : CSig) (mode : String)
    (hm : Supported mode) :
    ∃ v4, computeSync ext s mode true false =
        Except.ok (SyncResult.four s.nFreq s.nEpoch s.nCh v4) ∧
      computeSync ext s mode true true = Except.ok (SyncResult.three s.nFreq s.nCh
        (fun f p q => (∑ e in Finset.range s.nEpoch, v4 f e p q) / (s.nEpoch : ℝ))) := by
  rcases supported_cases mode hm with h|h|h|h|h|h|h <;> subst h <;> exact ⟨_, rfl, rfl⟩

/-- Trivial instantiation of the external collaborators, used to evaluate the
embedding at concrete inputs. -/
def ext0 : Externals where
  multitaper := fun _ _ _ => fun _ _ _ _ => 0
  filterData := fun _ _ _ x => x
  hilbert := fun _ => fun _ => 0
  circcorrcoef := fun _ _ _ => 0

/-- A minimal one-sample analytic signal. -/
def sig0 : CSig where
  nEpoch := 1
  nCh := 1
  nFreq := 1
  nSamp := 1
  val := fun _ _ _ _ _ => 0

/-- Witness for C9 at a concrete supported metric and signal. -/
theorem c9_witness : Supported "plv" ∧
    ∃ v4, computeSync ext0 sig0 "plv" true false =
        Except.ok (SyncResult.four sig0.nFreq sig0.nEpoch sig0.nCh v4) ∧
      computeSync ext0 sig0 "plv" true true = Except.ok (SyncResult.three sig0.nFreq sig0.nCh
        (fun f p q => (∑ e in Finset.range sig0.nEpoch, v4 f e p q) / (sig0.nEpoch : ℝ))) :=
  ⟨by decide, c9_time_resolved_epoch_mean ext0 sig0 "plv" (by decide)⟩

/-- C1 (amended): in the per-epoch branch the assembled 4-D entry at
`(f, e, i, j)` is the metric (with its pre-transform) of subject 0's
channel-`j` sequence and subject 1's channel-`i` sequence: the nested
comprehension of the source puts the subject-1 channel on axis 2 and the
subject-0 channel on axis 3. -/
theorem c1_amended_indexing (ext : Externals) (s : CSig) (mode : String)
    (hm : Supported mode) :
    computeSync ext s mode true false = Except.ok (SyncResult.four s.nFreq s.nEpoch s.nCh
      (fun f e i j => modePairFn ext s.nSamp mode
        (fun t => s.val 0 e j f t) (fun t => s.val 1 e i f t))) := by
  rcases supported_cases mode hm with h|h|h|h|h|h|h <;> subst h <;> rfl

/-- Concrete 1-frequency, 1-epoch, 2-channel, 2-sample analytic signal:
subject 0 has channels `[1, 2]` and `[2, 1]`, subject 1 has `[1, 2]` on both
channels (all real-valued samples). -/
def csEx : CSig where
  nEpoch := 1
  nCh := 2
  nFreq := 1
  nSamp := 2
  val := fun subj _ ch _ t =>
    if subj = 0 then
      (if ch = 0 then (if t = 0 then 1 else 2) else (if t = 0 then 2 else 1))
    else (if t = 0 then 1 else 2)

/-- Witness for the amended C1 at a concrete metric and signal. -/
theorem c1_amended_witness : Supported "envelope" ∧
    computeSync ext0 csEx "envelope" true false =
      Except.ok (SyncResult.four csEx.nFreq csEx.nEpoch csEx.nCh
        (fun f e i j => modePairFn ext0 csEx.nSamp "envelope"
          (fun t => csEx.val 0 e j f t) (fun t => csEx.val 1 e i f t))) :=
  ⟨by decide, c1_amended_indexing ext0 csEx "envelope" (by decide)⟩

/-- C1 counterexample: for the envelope metric on `csEx`, the assembled entry
at `(f, e, i, j) = (0, 0, 0, 1)` is the correlation of subject 0's channel 1
with subject 1's channel 0 (value -1), not the metric of subject 0's channel 0
with subject 1's channel 1 (value 1) as the claim states. -/
theorem c1_counterexample :
    resultEntry4 (computeSync ext0 csEx "envelope" true false) 0 0 0 1 ≠
      modePairFn ext0 csEx.nSamp "envelope"
        (fun t => csEx.val 0 0 0 0 t) (fun t => csEx.val 1 0 1 0 t) := by
  have hL : resultEntry4 (computeSync ext0 csEx "envelope" true false) 0 0 0 1 = -1 := by
    show _corrcoef 2 (fun t => Complex.abs (if t = 0 then (2:ℂ) else 1))
      (fun t => Complex.abs (if t = 0 then (1:ℂ) else 2)) = -1
    simp only [_corrcoef]
    norm_num [Finset.sum_range_succ, Complex.abs_two, map_one]
    rw [show (4:ℝ) = 2 ^ 2 by norm_num, Real.sqrt_sq (by norm_num : (0:ℝ) ≤ 2)]
    norm_num
  have hR : modePairFn ext0 csEx.nSamp "envelope"
      (fun t => csEx.val 0 0 0 0 t) (fun t => csEx.val 1 0 1 0 t) = 1 := by
    show _corrcoef 2 (fun t => Complex.abs (if t = 0 then (1:ℂ) else 2))
      (fun t => Complex.abs (if t = 0 then (1:ℂ) else 2)) = 1
    simp only [_corrcoef]
    norm_num [Finset.sum_range_succ, Complex.abs_two, map_one]
    rw [show (4:ℝ) = 2 ^ 2 by norm_num, Real.sqrt_sq (by norm_num : (0:ℝ) ≤ 2)]
    norm_num
  rw [hL, hR]
  norm_num

/-- C8 (amended): in the concatenated branch the result is 3-D, unaffected by
`time_resolved`, and its entry at `(f, i, j)` is the metric (with its
pre-transform) of subject 0's concatenated channel-`j` strand and subject 1's
concatenated channel-`i` strand; the elementwise pre-transform commutes with
the epoch concatenation. -/
theorem c8_amended_concatenated (ext : Externals) (s : CSig) (mode : String)
    (tr : Bool) (hm : Supported mode) :
    computeSync ext s mode false tr = Except.ok (SyncResult.three s.nFreq s.nCh
      (fun f i j => modePairFn ext (s.nEpoch * s.nSamp) mode
        (concatSlice s 0 j f) (concatSlice s 1 i f))) ∧
    computeSync ext s mode false true = computeSync ext s mode false false := by
  rcases supported_cases mode hm with h|h|h|h|h|h|h <;> subst h <;> exact ⟨rfl, rfl⟩

/-- Witness for the amended C8 at a concrete metric and signal. -/
theorem c8_amended_witness : Supported "envelope" ∧
    (computeSync ext0 csEx "envelope" false true =
      Except.ok (SyncResult.three csEx.nFreq csEx.nCh
        (fun f i j => modePairFn ext0 (csEx.nEpoch * csEx.nSamp) "envelope"
          (concatSlice csEx 0 j f) (concatSlice csEx 1 i f))) ∧
    computeSync ext0 csEx "envelope" false true =
      computeSync ext0 csEx "envelope" false false) :=
  ⟨by decide, c8_amended_concatenated ext0 csEx "envelope" true (by decide)⟩

/-- C8 counterexample: for the envelope metric on `csEx`, the concatenated
3-D entry at `(f, i, j) = (0, 0, 1)` is the correlation of subject 0's
channel-1 strand with subject 1's channel-0 strand (value -1), not the metric
of subject 0's channel-0 strand with subject 1's channel-1 strand (value 1)
as the claim's construction states. -/
theorem c8_counterexample :
    resultEntry3 (computeSync ext0 csEx "envelope" false false) 0 0 1 ≠
      modePairFn ext0 (csEx.nEpoch * csEx.nSamp) "envelope"
        (concatSlice csEx 0 0 0) (concatSlice csEx 1 1 0) := by
  have hL : resultEntry3 (computeSync ext0 csEx "envelope" false false) 0 0 1 = -1 := by
    show _corrcoef 2 (fun t => Complex.abs (csEx.val 0 (t / 2) 1 0 (t % 2)))
      (fun t => Complex.abs (csEx.val 1 (t / 2) 0 0 (t % 2))) = -1
    simp only [_corrcoef, csEx]
    norm_num [Finset.sum_range_succ, Complex.abs_two, map_one]
    rw [show (4:ℝ) = 2 ^ 2 by norm_num, Real.sqrt_sq (by norm_num : (0:ℝ) ≤ 2)]
    norm_num
  have hR : modePairFn ext0 (csEx.nEpoch * csEx.nSamp) "envelope"
      (concatSlice csEx 0 0 0) (concatSlice csEx 1 1 0) = 1 := by
    show _corrcoef 2 (fun t => Complex.abs (csEx.val 0 (t / 2) 0 0 (t % 2)))
      (fun t => Complex.abs (csEx.val 1 (t / 2) 1 0 (t % 2))) = 1
    simp only [_corrcoef, csEx]
    norm_num [Finset.sum_range_succ, Complex.abs_two, map_one]
    rw [show (4:ℝ) = 2 ^ 2 by norm_num, Real.sqrt_sq (by norm_num : (0:ℝ) ≤ 2)]
    norm_num
  rw [hL, hR]
  norm_num

/-- Shape of the engine output for any supported metric: 4-D exactly when
`epoch_wise` holds and `time_resolved` does not. -/
lemma computeSync_shape (ext : Externals) (s : CSig) (mode : String) (ew tr : Bool)
    (hm : Supported mode) :
    ∃ r, computeSync ext s mode ew tr = Except.ok r ∧
      shapeOf r = syncShape s.nFreq s.nEpoch s.nCh ew tr := by
  rcases supported_cases mode hm with h|h|h|h|h|h|h <;> subst h <;>
    cases ew <;> cases tr <;> exact ⟨_, rfl, rfl⟩

/-- C4: the frequency-axis length of the analytic signal is `f1 - f0` for a
discrete range `[f0, f1)` and the band count for a band dict (whose band axis
follows the dict's iteration order, as the exposed `val` equation shows), and
the facade's result is shaped `(n_freq, n_epochs, n_ch, n_ch)` when
`per_epoch` holds without `time_resolved` and `(n_freq, n_ch, n_ch)` in every
other flag combination. -/
theorem c4_shape_round_trip (ext : Externals) (d : DualData) (f0 f1 : ℤ)
    (bands : List (String × ℝ × ℝ)) (mode : String) (ew tr : Bool)
    (hf : f0 < f1) (hE : d.nEpochA = d.nEpochB) (hm : Supported mode) :
    ((compute_single_freq ext d f0 f1).nFreq : ℤ) = f1 - f0 ∧
    (∃ sig, compute_freq_bands ext d bands = Except.ok sig ∧
      sig.nFreq = bands.length ∧
      ∀ subj e c fb t, sig.val subj e c fb t =
        ext.hilbert (ext.filterData d.nSamp (bands.getD fb ("", 0, 0)).2.1
          (bands.getD fb ("", 0, 0)).2.2
          (fun u => (if subj = 0 then d.sub0 else d.sub1) e c u)) t) ∧
    (∃ r, simple_corr ext d (FreqSpec.list f0 f1) mode ew tr = Except.ok r ∧
      shapeOf r = syncShape (f1 - f0).toNat d.nEpochA d.nCh ew tr) ∧
    (∃ r, simple_corr ext d (FreqSpec.dict bands) mode ew tr = Except.ok r ∧
      shapeOf r = syncShape bands.length d.nEpochA d.nCh ew tr) := by
  have hnn : (0:ℤ) ≤ f1 - f0 := sub_nonneg.mpr hf.le
  have hlen : (arange f0 f1).length = (f1 - f0).toNat := by
    unfold arange
    rw [List.length_map, List.length_range]
  have hfb : compute_freq_bands ext d bands = Except.ok
      { nEpoch := d.nEpochA, nCh := d.nCh, nFreq := bands.length, nSamp := d.nSamp,
        val := fun subj e c fb t =>
          ext.hilbert (ext.filterData d.nSamp (bands.getD fb ("", 0, 0)).2.1
            (bands.getD fb ("", 0, 0)).2.2
            (fun u => (if subj = 0 then d.sub0 else d.sub1) e c u)) t } := by
    unfold compute_freq_bands
    rw [if_pos hE]
  refine ⟨?_, ⟨_, hfb, rfl, fun _ _ _ _ _ => rfl⟩, ?_, ?_⟩
  · show ((arange f0 f1).length : ℤ) = f1 - f0
    rw [hlen, Int.toNat_of_nonneg hnn]
  · obtain ⟨r, hr, hs⟩ :=
      computeSync_shape ext (compute_single_freq ext d f0 f1) mode ew tr hm
    refine ⟨r, ?_, ?_⟩
    · unfold simple_corr
      rw [if_pos hE]
      exact hr
    · rw [hs]
      show syncShape (arange f0 f1).length d.nEpochA d.nCh ew tr = _
      rw [hlen]
  · obtain ⟨r, hr, hs⟩ := computeSync_shape ext
      { nEpoch := d.nEpochA, nCh := d.nCh, nFreq := bands.length, nSamp := d.nSamp,
        val := fun subj e c fb t =>
          ext.hilbert (ext.filterData d.nSamp (bands.getD fb ("", 0, 0)).2.1
            (bands.getD fb ("", 0, 0)).2.2
            (fun u => (if subj = 0 then d.sub0 else d.sub1) e c u)) t } mode ew tr hm
    refine ⟨r, ?_, hs⟩
    unfold simple_corr
    rw [if_pos hE]
    simp only [hfb]
    exact hr

/-- Concrete dual-subject raw data with matching epoch counts. -/
def d0 : DualData where
  nEpochA := 1
  nEpochB := 1
  nCh := 1
  nSamp := 1
  sub0 := fun _ _ _ => 0
  sub1 := fun _ _ _ => 0

/-- Concrete one-band dict. -/
def bands0 : List (String × ℝ × ℝ) := [("alpha", 8, 12)]

/-- Witness for C4 at a concrete range, band dict, metric and flags. -/
theorem c4_witness : ((8:ℤ) < 10 ∧ d0.nEpochA = d0.nEpochB ∧ Supported "envelope") ∧
    (((compute_single_freq ext0 d0 8 10).nFreq : ℤ) = 10 - 8 ∧
    (∃ sig, compute_freq_bands ext0 d0 bands0 = Except.ok sig ∧
      sig.nFreq = bands0.length ∧
      ∀ subj e c fb t, sig.val subj e c fb t =
        ext0.hilbert (ext0.filterData d0.nSamp (bands0.getD fb ("", 0, 0)).2.1
          (bands0.getD fb ("", 0, 0)).2.2
          (fun u => (if subj = 0 then d0.sub0 else d0.sub1) e c u)) t) ∧
    (∃ r, simple_corr ext0 d0 (FreqSpec.list 8 10) "envelope" true true = Except.ok r ∧
      shapeOf r = syncShape ((10:ℤ) - 8).toNat d0.nEpochA d0.nCh true true) ∧
    (∃ r, simple_corr ext0 d0 (FreqSpec.dict bands0) "envelope" true true = Except.ok r ∧
      shapeOf r = syncShape bands0.length d0.nEpochA d0.nCh true true)) :=
  ⟨⟨by decide, rfl, by decide⟩,
    c4_shape_round_trip ext0 d0 8 10 bands0 "envelope" true true (by decide) rfl (by decide)⟩

/-- Concrete unit-amplitude signal: subject 0's sample is `i` (phase pi/2),
subject 1's sample is `1` (phase 0); one epoch, channel, frequency, sample. -/
def csUnit : CSig where
  nEpoch := 1
  nCh := 1
  nFreq := 1
  nSamp := 1
  val := fun subj _ _ _ _ => if subj = 0 then Complex.I else 1

/-- C2: the plv pipeline treats the unit-magnitude complex values themselves
as phases.  On `csUnit` the produced scalar is `exp(-1)` (from
`|exp(i*(i - 1))|`), while the mean resultant length of the phase-angle
difference stated by the claim is `1`. -/
theorem c2_plv_not_mean_resultant :
    resultEntry4 (computeSync ext0 csUnit "plv" true false) 0 0 0 0 = Real.exp (-1) ∧
    plvSpec 1 (fun _ => Complex.I) (fun _ => 1) = 1 ∧
    Real.exp (-1) ≠ 1 := by
  refine ⟨?_, ?_, ?_⟩
  · show _plv 1 (fun _ => Complex.I / ((Complex.abs Complex.I : ℝ) : ℂ))
      (fun _ => 1 / ((Complex.abs 1 : ℝ) : ℂ)) = Real.exp (-1)
    simp [_plv, Complex.abs_exp]
  · simp [plvSpec, Complex.abs_exp]
  · have h : Real.exp (-1) < Real.exp 0 := Real.exp_lt_exp.mpr (by norm_num)
    rw [Real.exp_zero] at h
    exact ne_of_lt h

/-- Concrete unit-amplitude signal with opposite phases: subject 0's sample
is `-i`, subject 1's sample is `i`. -/
def csOpp : CSig where
  nEpoch := 1
  nCh := 1
  nFreq := 1
  nSamp := 1
  val := fun subj _ _ _ _ => if subj = 0 then -Complex.I else Complex.I

/-- C5: on `csOpp` the scalar produced by the plv pipeline is `exp 2`, which
exceeds 1, contradicting the claimed [0, 1] range (a consequence of feeding
unit complex values instead of phase angles into the exponential). -/
theorem c5_plv_exceeds_one :
    resultEntry4 (computeSync ext0 csOpp "plv" true false) 0 0 0 0 = Real.exp 2 ∧
    1 < Real.exp 2 := by
  constructor
  · show _plv 1 (fun _ => -Complex.I / ((Complex.abs (-Complex.I) : ℝ) : ℂ))
      (fun _ => Complex.I / ((Complex.abs Complex.I : ℝ) : ℂ)) = Real.exp 2
    simp [_plv, Complex.abs_exp]
    norm_num
  · have h : Real.exp 0 < Real.exp 2 := Real.exp_lt_exp.mpr (by norm_num)
    rwa [Real.exp_zero] at h

/-- C6: the coh pipeline also treats unit complex values as phases.  On
`csUnit` the produced scalar is `exp(-1)`, while the claimed formula (complex
exponential of the phase-angle difference) evaluates to `1`. -/
theorem c6_coh_formula_bug :
    resultEntry4 (computeSync ext0 csUnit "coh" true false) 0 0 0 0 = Real.exp (-1) ∧
    cohSpec 1 (fun _ => Complex.I) (fun _ => 1) = 1 ∧
    Real.exp (-1) ≠ 1 := by
  refine ⟨?_, ?_, ?_⟩
  · show _coh 1 (fun _ => Complex.I) (fun _ => 1) = Real.exp (-1)
    simp [_coh, Complex.abs_exp]
  · simp [cohSpec, Complex.abs_exp]
  · have h : Real.exp (-1) < Real.exp 0 := Real.exp_lt_exp.mpr (by norm_num)
    rw [Real.exp_zero] at h
    exact ne_of_lt h

/-- Concrete dual-subject raw data with mismatched epoch counts (1 vs 2). -/
def dMis : DualData where
  nEpochA := 1
  nEpochB := 2
  nCh := 1
  nSamp := 1
  sub0 := fun _ _ _ => 0
  sub1 := fun _ _ _ => 0

/-- C10 counterexample: with a non-list non-dict frequency specification but
mismatched epoch counts, the facade fails with `InputMismatch` (the assert
precedes the frequency dispatch), not with the undefined-variable error the
claim predicts for every such call. -/
theorem c10_counterexample :
    simple_corr ext0 dMis FreqSpec.other "plv" true true =
      Except.error SyncError.inputMismatch ∧
    SyncError.inputMismatch ≠ SyncError.nameError "values" := by
  exact ⟨rfl, by decide⟩

/-- C10 (amended): when the epoch counts match and the frequency
specification is neither a list nor a dict, the facade fails with the
undefined-variable error on `values`, not with any of the documented
conditions. -/
theorem c10_amended_nameerror (ext : Externals) (d : DualData) (mode : String)
    (ew tr : Bool) (hE : d.nEpochA = d.nEpochB) :
    simple_corr ext d FreqSpec.other mode ew tr =
      Except.error (SyncError.nameError "values") := by
  unfold simple_corr
  rw [if_pos hE]

/-- Witness for the amended C10 at concrete matching-epoch data. -/
theorem c10_amended_witness : d0.nEpochA = d0.nEpochB ∧
    simple_corr ext0 d0 FreqSpec.other "plv" true true =
      Except.error (SyncError.nameError "values") :=
  ⟨rfl, c10_amended_nameerror ext0 d0 "plv" true true rfl⟩
